import Mathlib

/-!
Verification of the response-normalization and diagnostic-logging layer in
graphrag/language_model/providers/fnllm/patches.py.

The embedding models the Python values the code manipulates: JSON values (the
image of json.loads), duck-typed completion objects, raw HTTP responses, and
the log records the module emits.  Machine-level concerns (async scheduling,
the HTTP transport itself) are out of scope; the functions below start at the
point where the raw response is in hand, mirroring lines 154-205 of the source.
-/

namespace GraphragFnllm

/-! ## JSON values (image of Python json.loads) -/

/-- A JSON value as produced by Python's json.loads.  Numbers are kept as
rationals (exact for every finite decimal literal); objects are ordered
key/value lists with distinct keys, as a Python dict is. -/
inductive Json where
  | null
  | bool (b : Bool)
  | num (q : Rat)
  | str (s : String)
  | arr (xs : List Json)
  | obj (kvs : List (String × Json))

/-- First binding of a key in an association list (keys are distinct by
construction, so first and last agree for decoded objects). -/
def lookupList (kvs : List (String × Json)) (k : String) : Option Json :=
  match kvs with
  | [] => none
  | (k₁, v) :: rest => if k₁ = k then some v else lookupList rest k

/-- Python dict insertion: replace the value in place when the key exists,
append otherwise. -/
def insertKey (kvs : List (String × Json)) (k : String) (v : Json) :
    List (String × Json) :=
  match kvs with
  | [] => [(k, v)]
  | (k₁, v₁) :: rest =>
      if k₁ = k then (k₁, v) :: rest else (k₁, v₁) :: insertKey rest k v

/-- dict.get(k) — None when the key is absent or the value is not a dict. -/
def Json.getKey : Json → String → Option Json
  | .obj kvs, k => lookupList kvs k
  | _, _ => none

/-- dict.get(k, default). -/
def Json.getD (j : Json) (k : String) (d : Json) : Json :=
  (j.getKey k).getD d

/-- Python truthiness of a JSON value. -/
def Json.truthy : Json → Bool
  | .null => false
  | .bool b => b
  | .num q => if q = 0 then false else true
  | .str s => !s.isEmpty
  | .arr xs => !xs.isEmpty
  | .obj kvs => !kvs.isEmpty

/-- The Python x or y operator on JSON values. -/
def pyOr (a b : Json) : Json :=
  if a.truthy then a else b

/-- type(x).__name__ for the Python value a JSON value denotes.  Integral
numbers print as int; the distinction only feeds log text. -/
def pyTypeName : Json → String
  | .null => "NoneType"
  | .bool _ => "bool"
  | .num q => if q.den = 1 then "int" else "float"
  | .str _ => "str"
  | .arr _ => "list"
  | .obj _ => "dict"

/-! ## json.loads

An executable decoder for the JSON grammar Python's json.loads accepts
(strict mode: raw control characters inside strings are rejected; the
non-standard NaN/Infinity literals are not modelled).  Recursion is by fuel;
nesting consumes at least one character per level, so fuel = length + 1 is
always enough. -/

/-- JSON insignificant whitespace (space, tab, newline, carriage return). -/
def isJsonWs (c : Char) : Bool :=
  c == ' ' || c == '\t' || c == '\n' || c == '\r'

def skipWs (cs : List Char) : List Char :=
  cs.dropWhile isJsonWs

def hexVal (c : Char) : Option Nat :=
  if '0' ≤ c ∧ c ≤ '9' then some (c.toNat - 48)
  else if 'a' ≤ c ∧ c ≤ 'f' then some (c.toNat - 87)
  else if 'A' ≤ c ∧ c ≤ 'F' then some (c.toNat - 55)
  else none

/-- Body of a JSON string, after the opening quote.  Returns the decoded
string and the input after the closing quote. -/
def parseStringAux : List Char → List Char → Except Unit (String × List Char)
  | acc, '"' :: rest => .ok (String.mk acc.reverse, rest)
  | acc, '\\' :: e :: rest =>
      if e = '"' then parseStringAux ('"' :: acc) rest
      else if e = '\\' then parseStringAux ('\\' :: acc) rest
      else if e = '/' then parseStringAux ('/' :: acc) rest
      else if e = 'b' then parseStringAux ('\x08' :: acc) rest
      else if e = 'f' then parseStringAux ('\x0c' :: acc) rest
      else if e = 'n' then parseStringAux ('\n' :: acc) rest
      else if e = 'r' then parseStringAux ('\r' :: acc) rest
      else if e = 't' then parseStringAux ('\t' :: acc) rest
      else if e = 'u' then
        match rest with
        | h₁ :: h₂ :: h₃ :: h₄ :: rest₂ =>
            match hexVal h₁, hexVal h₂, hexVal h₃, hexVal h₄ with
            | some a, some b, some c, some d =>
                parseStringAux (Char.ofNat (((a * 16 + b) * 16 + c) * 16 + d) :: acc) rest₂
            | _, _, _, _ => .error ()
        | _ => .error ()
      else .error ()
  | acc, c :: rest =>
      if c.toNat < 32 then .error () else parseStringAux (c :: acc) rest
  | _, [] => .error ()

def natFromDigits (ds : List Char) : Nat :=
  ds.foldl (fun a c => a * 10 + (c.toNat - 48)) 0

/-- Fraction and exponent parts of a number, given the integer part. -/
def parseNumberTail (neg : Bool) (ip : Nat) (cs : List Char) :
    Except Unit (Json × List Char) :=
  let (fracDigits, cs₁) :=
    match cs with
    | '.' :: r =>
        let (ds, r₂) := r.span Char.isDigit
        (some ds, r₂)
    | _ => (none, cs)
  let expPart :
      Option (Option (Bool × List Char) × List Char) :=
    match cs₁ with
    | 'e' :: r | 'E' :: r =>
        let (eneg, r₁) :=
          match r with
          | '+' :: r₂ => (false, r₂)
          | '-' :: r₂ => (true, r₂)
          | _ => (false, r)
        let (ds, r₂) := r₁.span Char.isDigit
        some (some (eneg, ds), r₂)
    | _ => some (none, cs₁)
  match fracDigits, expPart with
  | some [], _ => .error ()
  | _, some (some (_, []), _) => .error ()
  | frac, some (ex, rest) =>
      let base : Rat :=
        match frac with
        | none => (ip : Rat)
        | some ds => (ip : Rat) + (natFromDigits ds : Rat) / ((10 : Rat) ^ ds.length)
      let scaled : Rat :=
        match ex with
        | none => base
        | some (eneg, ds) =>
            let e := natFromDigits ds
            if eneg then base / ((10 : Rat) ^ e) else base * ((10 : Rat) ^ e)
      .ok (.num (if neg then -scaled else scaled), rest)
  | _, none => .error ()

/-- A JSON number starting at the given characters. -/
def parseNumber (cs : List Char) : Except Unit (Json × List Char) :=
  let (neg, cs₁) :=
    match cs with
    | '-' :: r => (true, r)
    | _ => (false, cs)
  match cs₁ with
  | '0' :: r => parseNumberTail neg 0 r
  | c :: _ =>
      if c.isDigit then
        let (ds, r₂) := cs₁.span Char.isDigit
        parseNumberTail neg (natFromDigits ds) r₂
      else .error ()
  | [] => .error ()

def expectLit (lit : List Char) (cs : List Char) : Except Unit (List Char) :=
  if lit.isPrefixOf cs then .ok (cs.drop lit.length) else .error ()

mutual

/-- One JSON value, leading whitespace allowed; returns the remaining input. -/
def parseValue : Nat → List Char → Except Unit (Json × List Char)
  | 0, _ => .error ()
  | fuel + 1, cs =>
    match skipWs cs with
    | [] => .error ()
    | c :: rest =>
      if c = '\x7b' then
        match skipWs rest with
        | '\x7d' :: rest₂ => .ok (.obj [], rest₂)
        | rest₂ => do
            let (kvs, rest₃) ← parseMembers fuel [] rest₂
            .ok (.obj kvs, rest₃)
      else if c = '[' then
        match skipWs rest with
        | ']' :: rest₂ => .ok (.arr [], rest₂)
        | rest₂ => do
            let (xs, rest₃) ← parseElements fuel [] rest₂
            .ok (.arr xs, rest₃)
      else if c = '"' then do
        let (s, rest₂) ← parseStringAux [] rest
        .ok (.str s, rest₂)
      else if c = 't' then do
        let rest₂ ← expectLit ['r', 'u', 'e'] rest
        .ok (.bool true, rest₂)
      else if c = 'f' then do
        let rest₂ ← expectLit ['a', 'l', 's', 'e'] rest
        .ok (.bool false, rest₂)
      else if c = 'n' then do
        let rest₂ ← expectLit ['u', 'l', 'l'] rest
        .ok (.null, rest₂)
      else parseNumber (c :: rest)

/-- Members of an object, positioned at a key (whitespace already skipped). -/
def parseMembers : Nat → List (String × Json) → List Char →
    Except Unit (List (String × Json) × List Char)
  | 0, _, _ => .error ()
  | fuel + 1, acc, cs =>
    match cs with
    | '"' :: rest => do
        let (k, r₁) ← parseStringAux [] rest
        match skipWs r₁ with
        | ':' :: r₂ => do
            let (v, r₃) ← parseValue fuel r₂
            let acc₁ := insertKey acc k v
            match skipWs r₃ with
            | ',' :: r₄ => parseMembers fuel acc₁ (skipWs r₄)
            | '\x7d' :: r₄ => .ok (acc₁, r₄)
            | _ => .error ()
        | _ => .error ()
    | _ => .error ()

/-- Elements of an array, positioned at a value. -/
def parseElements : Nat → List Json → List Char →
    Except Unit (List Json × List Char)
  | 0, _, _ => .error ()
  | fuel + 1, acc, cs => do
      let (v, r₁) ← parseValue fuel cs
      match skipWs r₁ with
      | ',' :: r₂ => parseElements fuel (acc ++ [v]) r₂
      | ']' :: r₂ => .ok (acc ++ [v], r₂)
      | _ => .error ()

end

/-- json.loads on a character list: one value, nothing but whitespace after. -/
def jsonDecode (cs : List Char) : Except Unit Json :=
  match parseValue (cs.length + 1) cs with
  | .error () => .error ()
  | .ok (j, rest) => if (skipWs rest).isEmpty then .ok j else .error ()

/-! ## Python string helpers used by the patch module -/

/-- ASCII whitespace stripped by Python's str.strip(). -/
def isPySpace (c : Char) : Bool :=
  c == ' ' || c == '\t' || c == '\n' || c == '\r' || c == '\x0b' || c == '\x0c'

/-- str.strip(): drop leading and trailing whitespace. -/
def pyStripChars (cs : List Char) : List Char :=
  ((cs.dropWhile isPySpace).reverse.dropWhile isPySpace).reverse

/-- str.splitlines() restricted to the line terminators that occur in SSE
bodies (a lone newline, carriage return, or the pair); no trailing empty
line is produced. -/
def pySplitlinesAux (acc : List Char) : List Char → List (List Char)
  | [] => if acc.isEmpty then [] else [acc.reverse]
  | '\r' :: '\n' :: rest => acc.reverse :: pySplitlinesAux [] rest
  | '\n' :: rest => acc.reverse :: pySplitlinesAux [] rest
  | '\r' :: rest => acc.reverse :: pySplitlinesAux [] rest
  | c :: rest => pySplitlinesAux (c :: acc) rest

def pySplitlines (cs : List Char) : List (List Char) :=
  pySplitlinesAux [] cs

/-! ## Exceptions

The Python exceptions the patch module can raise or re-raise, as values. -/

inductive PyExc where
  /-- AttributeError, with the interpreter's message. -/
  | attributeError (msg : String)
  /-- TypeError, with the interpreter's message. -/
  | typeError (msg : String)
  /-- pydantic ValidationError from ChatCompletion.model_validate. -/
  | validationError (msg : String)
  /-- OpenAINoChoicesAvailableError from fnllm. -/
  | noChoicesAvailableError
  /-- Any other exception, e.g. one escaping raw_response.parse(). -/
  | otherError (msg : String)
deriving DecidableEq, Repr

def pyNoAttrGet (tn : String) : PyExc :=
  .attributeError ("'" ++ tn ++ "' object has no attribute 'get'")

/-! ## _coalesce_stream_chunks -/

/-- The body of the for choice in parsed.get("choices", []) loop for one
decoded payload whose choices value is a list: collect each truthy
delta.content, raising AttributeError where Python would (a choice or a
delta that is not a dict). -/
def deltaChunks : List Json → Except PyExc (List Json)
  | [] => .ok []
  | ch :: rest =>
    match ch with
    | .obj kvs =>
      match (lookupList kvs "delta").getD (.obj []) with
      | .obj dkvs =>
          let content := (lookupList dkvs "content").getD .null
          (deltaChunks rest).map fun tail =>
            if content.truthy then content :: tail else tail
      | delta => .error (pyNoAttrGet (pyTypeName delta))
    | _ => .error (pyNoAttrGet (pyTypeName ch))

/-- Iterating the value of the "choices" key: a list iterates elementwise;
an empty string or dict iterates zero times; any other string or dict hits
AttributeError on the first item; the rest are not iterable. -/
def iterChoices : Json → Except PyExc (List Json)
  | .arr xs => deltaChunks xs
  | .str s => if s.isEmpty then .ok [] else .error (pyNoAttrGet "str")
  | .obj kvs => if kvs.isEmpty then .ok [] else .error (pyNoAttrGet "str")
  | v => .error (.typeError ("'" ++ pyTypeName v ++ "' object is not iterable"))

/-- parsed.get("choices", []) followed by the choices loop.  A payload that
decoded to something other than a dict has no .get and raises. -/
def chunksOfPayload : Json → Except PyExc (List Json)
  | .obj kvs => iterChoices ((lookupList kvs "choices").getD (.arr []))
  | v => .error (pyNoAttrGet (pyTypeName v))

/-- One iteration of the line loop of _coalesce_stream_chunks: the state is
the accumulated chunks and the last successfully decoded payload. -/
def processLine (st : List Json × Option Json) (rawLine : List Char) :
    Except PyExc (List Json × Option Json) :=
  let line := pyStripChars rawLine
  if "data:".data.isPrefixOf line then
    let payload := pyStripChars (line.drop 5)
    if payload.isEmpty || payload == "[DONE]".data then .ok st
    else
      match jsonDecode payload with
      | .error _ => .ok st
      | .ok parsed =>
          (chunksOfPayload parsed).map fun cs => (st.1 ++ cs, some parsed)
  else .ok st

def processLines (st : List Json × Option Json) :
    List (List Char) → Except PyExc (List Json × Option Json)
  | [] => .ok st
  | l :: ls =>
      match processLine st l with
      | .error e => .error e
      | .ok st₁ => processLines st₁ ls

/-- "".join(chunks): concatenate, raising TypeError on a non-string item. -/
def pyJoinStrs : List Json → Except PyExc String
  | [] => .ok ""
  | .str s :: rest => (pyJoinStrs rest).map fun t => s ++ t
  | c :: _ =>
      .error (.typeError ("sequence item: expected str instance, " ++
        pyTypeName c ++ " found"))

/-- The completion-shaped dict synthesized from the accumulated chunks and
the last decoded payload (lines 109-133 of the source). -/
def synthesize (chunks : List Json) (lp : Json) : Except PyExc Json :=
  (pyJoinStrs chunks).map fun content =>
    let choice : Json := .obj [
      ("index", .num 0),
      ("message", .obj [("role", .str "assistant"), ("content", .str content)]),
      ("finish_reason", .str "stop"),
      ("logprobs", .null)]
    let base : List (String × Json) := [
      ("id", lp.getD "id" (.str "streamed-response")),
      ("object", .str "chat.completion"),
      ("model", lp.getD "model" (.str "unknown-model")),
      ("created", pyOr (lp.getD "created" .null) (.num 0)),
      ("choices", .arr [choice]),
      ("system_fingerprint", lp.getD "system_fingerprint" .null)]
    .obj (match lp.getKey "usage" with
      | some (.obj u) => base ++ [("usage", .obj u)]
      | _ => base)

/-- _coalesce_stream_chunks: ok none models the Python None return (no
payload decoded), an error models an escaping exception. -/
def coalesceStreamChunks (text : String) : Except PyExc (Option Json) :=
  match processLines ([], none) (pySplitlines text.data) with
  | .error e => .error e
  | .ok (_, none) => .ok none
  | .ok (chunks, some lp) => (synthesize chunks lp).map some

/-! ## Completion objects, raw responses and diagnostics -/

/-- The message of a choice (role + content). -/
structure ChatMessage where
  role : String
  content : Option String
deriving DecidableEq, Repr

structure ChatChoice where
  index : Int
  message : ChatMessage
  finish_reason : Option String
deriving DecidableEq, Repr

/-- Token counts of a completion's usage block (total_tokens is validated on
decoding but not consumed by the patch module). -/
structure UsageInfo where
  prompt_tokens : Int
  completion_tokens : Int
deriving DecidableEq, Repr

/-- A structured (duck-typed) completion object.  choices = none models an
object with no choices attribute at all; usage is an attribute that is
always defined and may hold None, as on ChatCompletion. -/
structure CompletionObj where
  typeName : String
  choices : Option (List ChatChoice)
  usage : Option UsageInfo
deriving DecidableEq, Repr

/-- What raw_response.parse() can hand back: a plain string body or a
structured completion object. -/
inductive ParsedValue where
  | pstr (s : String)
  | pcomp (c : CompletionObj)
deriving DecidableEq, Repr

/-- type(parsed).__name__. -/
def parsedTypeName : ParsedValue → String
  | .pstr _ => "str"
  | .pcomp c => c.typeName

instance {ε α : Type} [DecidableEq ε] [DecidableEq α] :
    DecidableEq (Except ε α) := fun a b =>
  match a, b with
  | .error e₁, .error e₂ =>
      if h : e₁ = e₂ then .isTrue (by rw [h]) else .isFalse (by simp [h])
  | .ok v₁, .ok v₂ =>
      if h : v₁ = v₂ then .isTrue (by rw [h]) else .isFalse (by simp [h])
  | .error _, .ok _ => .isFalse (by simp)
  | .ok _, .error _ => .isFalse (by simp)

/-- The request hanging off the HTTP response; url = none models a request
object without a url attribute (getattr default ""). -/
structure RequestInfo where
  url : Option String
deriving DecidableEq, Repr

/-- The underlying httpx response: status/request/header metadata plus the
body text, whose read may itself raise (error = the exception's text). -/
structure HttpResp where
  status_code : Option Int
  request : Option RequestInfo
  headers : List (String × String)
  text : Except String String
deriving DecidableEq, Repr

/-- The raw response handle: http_response = none models a handle whose
http_response attribute is None; parseResult is what parse() does. -/
structure RawResponse where
  http_response : Option HttpResp
  headers : List (String × String)
  parseResult : Except PyExc ParsedValue
deriving DecidableEq, Repr

/-- _extract_response_body: the body text, or the placeholder built from the
exception that escaped the read. -/
def extractResponseBody (r : RawResponse) : String :=
  match r.http_response with
  | none => "<failed to read response body: 'NoneType' object has no attribute 'text'>"
  | some h =>
    match h.text with
    | .ok t => t
    | .error exc => "<failed to read response body: " ++ exc ++ ">"

/-- The mapping _build_response_details returns. -/
structure ResponseDetails where
  status_code : Option Int
  url : Option String
  headers : List (String × String)
  response_body : String
  parsed_type : Option String
deriving DecidableEq, Repr

def buildResponseDetails (r : RawResponse) (parsed : Option ParsedValue) :
    ResponseDetails :=
  let http := r.http_response
  let request := http.bind (·.request)
  { status_code := http.bind (·.status_code)
    url := match request with
      | some req => some (req.url.getD "")
      | none => none
    headers := (http.map (·.headers)).getD []
    response_body := extractResponseBody r
    parsed_type := parsed.map parsedTypeName }

/-- f-string rendering of an optional value (None prints as None). -/
def pyShowOptInt : Option Int → String
  | none => "None"
  | some n => toString n

def pyShowOptStr : Option String → String
  | none => "None"
  | some s => s

/-- _format_detail_message. -/
def formatDetailMessage (d : ResponseDetails) : String :=
  "status=" ++ pyShowOptInt d.status_code ++ " url=" ++ pyShowOptStr d.url ++
    " parsed=" ++ pyShowOptStr d.parsed_type ++ " body=" ++ d.response_body

/-! ## Log records -/

inductive LogLevel where
  | error
  | warning
deriving DecidableEq, Repr

/-- One record handed to the logging sink: severity, the formatted message,
and the details mapping attached via extra. -/
structure LogRecord where
  level : LogLevel
  message : String
  details : ResponseDetails
deriving DecidableEq, Repr

/-! ## ChatCompletion.model_validate

The pydantic validation applied to the synthesized dict, restricted to the
field shapes that dict can carry.  Only the logprobs values the module ever
builds (null) are accepted; total_tokens is checked and discarded. -/

/-- A JSON value that pydantic accepts for an int field. -/
def jsonInt : Json → Option Int
  | .num q => if q.den = 1 then some q.num else none
  | _ => none

def jsonStr : Json → Option String
  | .str s => some s
  | _ => none

def validateUsage (j : Json) : Except PyExc UsageInfo :=
  match j with
  | .obj kvs =>
    match jsonInt ((lookupList kvs "prompt_tokens").getD .null),
        jsonInt ((lookupList kvs "completion_tokens").getD .null),
        jsonInt ((lookupList kvs "total_tokens").getD .null) with
    | some p, some c, some _ => .ok ⟨p, c⟩
    | _, _, _ => .error (.validationError "usage")
  | _ => .error (.validationError "usage")

def validateMessage (j : Json) : Except PyExc ChatMessage :=
  match j with
  | .obj kvs =>
    match (lookupList kvs "role").getD .null with
    | .str "assistant" =>
      match (lookupList kvs "content").getD .null with
      | .null => .ok ⟨"assistant", none⟩
      | .str s => .ok ⟨"assistant", some s⟩
      | _ => .error (.validationError "message.content")
    | _ => .error (.validationError "message.role")
  | _ => .error (.validationError "message")

def finishReasons : List String :=
  ["stop", "length", "tool_calls", "content_filter", "function_call"]

def validateChoice (j : Json) : Except PyExc ChatChoice :=
  match j with
  | .obj kvs =>
    match jsonInt ((lookupList kvs "index").getD .null),
        (lookupList kvs "finish_reason").getD .null with
    | some ix, .str fr =>
      if fr ∈ finishReasons then
        match (lookupList kvs "logprobs").getD .null with
        | .null =>
          match validateMessage ((lookupList kvs "message").getD .null) with
          | .ok m => .ok ⟨ix, m, some fr⟩
          | .error e => .error e
        | _ => .error (.validationError "choice.logprobs")
      else .error (.validationError "choice.finish_reason")
    | _, _ => .error (.validationError "choice")
  | _ => .error (.validationError "choice")

def validateChoiceList : List Json → Except PyExc (List ChatChoice)
  | [] => .ok []
  | j :: rest =>
    match validateChoice j with
    | .error e => .error e
    | .ok c =>
      match validateChoiceList rest with
      | .error e => .error e
      | .ok cs => .ok (c :: cs)

def validateChatCompletion (j : Json) : Except PyExc CompletionObj :=
  match j with
  | .obj kvs =>
    match jsonStr ((lookupList kvs "id").getD .null),
        jsonStr ((lookupList kvs "model").getD .null),
        jsonInt ((lookupList kvs "created").getD .null),
        (lookupList kvs "object").getD .null with
    | some _, some _, some _, .str "chat.completion" =>
      match (lookupList kvs "choices").getD .null with
      | .arr xs =>
        match validateChoiceList xs with
        | .error e => .error e
        | .ok cs =>
          match (lookupList kvs "system_fingerprint").getD .null with
          | .null | .str _ =>
            match lookupList kvs "usage" with
            | none | some .null => .ok ⟨"ChatCompletion", some cs, none⟩
            | some u =>
              match validateUsage u with
              | .error e => .error e
              | .ok usage => .ok ⟨"ChatCompletion", some cs, some usage⟩
          | _ => .error (.validationError "system_fingerprint")
      | _ => .error (.validationError "choices")
    | _, _, _, _ => .error (.validationError "completion")
  | _ => .error (.validationError "completion")

/-! ## _normalize_completion and _execute_llm_with_logging -/

/-- _normalize_completion: coerce a string completion that looks like an SSE
stream; everything else passes through.  The warning record is emitted on
successful reassembly (before model_validate runs). -/
def normalizeCompletion (completion : ParsedValue) (r : RawResponse) :
    Except PyExc ParsedValue × List LogRecord :=
  match completion with
  | .pstr s =>
    let text := String.mk (pyStripChars s.data)
    if "data:".data.isPrefixOf text.data then
      let details := buildResponseDetails r none
      match coalesceStreamChunks text with
      | .error e => (.error e, [])
      | .ok none => (.ok completion, [])
      | .ok (some assembled) =>
        let warnRec : LogRecord :=
          ⟨.warning, "Coerced streaming response into chat completion; " ++
            formatDetailMessage details, details⟩
        match validateChatCompletion assembled with
        | .error e => (.error e, [warnRec])
        | .ok c => (.ok (.pcomp c), [warnRec])
    else (.ok completion, [])
  | .pcomp _ => (.ok completion, [])

/-- Usage metrics on the returned output (defaulting to zero/zero). -/
structure LLMUsageMetrics where
  input_tokens : Int := 0
  output_tokens : Int := 0
deriving DecidableEq, Repr

/-- The OpenAIChatOutput the patched _execute_llm returns (the prompt echo
raw_input is built before the modelled region and carries no logic). -/
structure OpenAIChatOutput where
  raw_output : ChatMessage
  content : Option String
  raw_model : CompletionObj
  usage : LLMUsageMetrics
  headers : List (String × String)
deriving DecidableEq, Repr

/-- The AttributeError raised by completion.choices on an object without the
attribute. -/
def missingChoicesExc (tn : String) : PyExc :=
  .attributeError ("'" ++ tn ++ "' object has no attribute 'choices'")

/-- The error result and log record of the except AttributeError branch. -/
def missingChoicesResult (r : RawResponse) (completion : ParsedValue)
    (logs : List LogRecord) :
    Except PyExc OpenAIChatOutput × List LogRecord :=
  let details := buildResponseDetails r (some completion)
  (.error (missingChoicesExc (parsedTypeName completion)),
    logs ++ [⟨.error, "LLM response missing 'choices' field; " ++
      formatDetailMessage details, details⟩])

/-- _execute_llm_with_logging from the point the raw response is in hand
(lines 154-205): parse with error logging, normalize, validate choices,
extract the first message and the usage metrics. -/
def executeLlmWithLogging (r : RawResponse) :
    Except PyExc OpenAIChatOutput × List LogRecord :=
  match r.parseResult with
  | .error exc =>
    let details := buildResponseDetails r none
    (.error exc, [⟨.error, "Failed to parse response from LLM; " ++
      formatDetailMessage details, details⟩])
  | .ok completion₀ =>
    let headers := r.headers
    match normalizeCompletion completion₀ r with
    | (.error e, logs) => (.error e, logs)
    | (.ok completion, logs) =>
      match completion with
      | .pstr _ => missingChoicesResult r completion logs
      | .pcomp c =>
        match c.choices with
        | none => missingChoicesResult r completion logs
        | some [] =>
          let details := buildResponseDetails r (some completion)
          (.error .noChoicesAvailableError,
            logs ++ [⟨.error, "LLM response contained no choices; " ++
              formatDetailMessage details, details⟩])
        | some (ch :: _) =>
          let usage : LLMUsageMetrics :=
            match c.usage with
            | some u => ⟨u.prompt_tokens, u.completion_tokens⟩
            | none => {}
          (.ok ⟨ch.message, ch.message.content, c, usage, headers⟩, logs)

/-! ## Derived notions used to state the claims -/

def Json.isStr : Json → Bool
  | .str _ => true
  | _ => false

/-- A well-behaved SSE data line payload: strip-fixed, non-empty, and either
undecodable (the skipped case) or decoding to a payload whose choices loop
succeeds yielding only string contents. -/
def lineGoodB (p : List Char) : Bool :=
  decide (pyStripChars p = p) && !p.isEmpty &&
  (match jsonDecode p with
   | .error _ => true
   | .ok j =>
     match chunksOfPayload j with
     | .ok cs => cs.all Json.isStr
     | .error _ => false)

/-- The delta contents a decodable line contributes (empty for a line that
fails to decode). -/
def lineStrChunks (p : List Char) : List String :=
  match jsonDecode p with
  | .ok j =>
    match chunksOfPayload j with
    | .ok cs =>
        cs.filterMap fun c =>
          match c with
          | .str s => some s
          | _ => none
    | .error _ => []
  | .error _ => []

def lineDecoded (p : List Char) : Option Json :=
  match jsonDecode p with
  | .ok j => some j
  | .error _ => none

def decodeOk (p : List Char) : Bool :=
  match jsonDecode p with
  | .ok _ => true
  | .error _ => false

/-- The last successfully decoded payload across a list of payloads, seeded
with an accumulator. -/
def lastDecoded (acc : Option Json) : List (List Char) → Option Json
  | [] => acc
  | p :: ps =>
      lastDecoded
        (match lineDecoded p with
         | some j => some j
         | none => acc) ps

/-- Concatenation with no separator. -/
def joinAll (ss : List String) : String :=
  ss.foldr (fun a b => a ++ b) ""

/-- choices[0].message.content of a completion-shaped dict. -/
def completionDictContent (j : Json) : Option Json :=
  match j.getKey "choices" with
  | some (.arr (c :: _)) =>
    match c.getKey "message" with
    | some m => m.getKey "content"
    | _ => none
  | _ => none

/-! ## Concrete data for witnesses and counterexamples -/

/-- An SSE body whose single data line carries two choices, each with
content. -/
def c2Body : String :=
  "data: \x7b\"choices\":[\x7b\"delta\":\x7b\"content\":\"A\"\x7d\x7d,\x7b\"delta\":\x7b\"content\":\"B\"\x7d\x7d]\x7d\ndata: [DONE]"

/-- What _coalesce_stream_chunks builds from c2Body. -/
def c2Coerced : Json :=
  .obj [
    ("id", .str "streamed-response"),
    ("object", .str "chat.completion"),
    ("model", .str "unknown-model"),
    ("created", .num 0),
    ("choices", .arr [.obj [
      ("index", .num 0),
      ("message", .obj [("role", .str "assistant"), ("content", .str "AB")]),
      ("finish_reason", .str "stop"),
      ("logprobs", .null)]]),
    ("system_fingerprint", .null)]

/-- The two payload lines of the unit-test SSE body. -/
def c2TestPayloadA : List Char :=
  "\x7b\"choices\":[\x7b\"delta\":\x7b\"content\":\"Hello\"\x7d\x7d]\x7d".data

def c2TestPayloadB : List Char :=
  "\x7b\"choices\":[\x7b\"delta\":\x7b\"content\":\" World\"\x7d\x7d]\x7d".data

def c2TestBody : String :=
  "data: \x7b\"choices\":[\x7b\"delta\":\x7b\"content\":\"Hello\"\x7d\x7d]\x7d\ndata: \x7b\"choices\":[\x7b\"delta\":\x7b\"content\":\" World\"\x7d\x7d]\x7d\ndata: [DONE]"

/-- A raw response whose parse() yields a structured completion with one
choice and a usage block. -/
def c1Message : ChatMessage := ⟨"assistant", some "hi"⟩

def c1Completion : CompletionObj :=
  ⟨"ChatCompletion", some [⟨0, c1Message, some "stop"⟩], some ⟨3, 5⟩⟩

def c1Response : RawResponse :=
  ⟨some ⟨some 200, some ⟨some "http://example.com/v1/chat/completions"⟩,
      [("content-type", "application/json")], .ok "raw body"⟩,
    [("content-type", "application/json")],
    .ok (.pcomp c1Completion)⟩

/-- A raw response whose parse() raises. -/
def c3Response : RawResponse :=
  ⟨some ⟨some 500, none, [], .ok "failure body"⟩, [],
    .error (.otherError "Expecting value: line 1 column 1 (char 0)")⟩

/-- A raw response whose parse() yields an object without a choices
attribute (the first unit test). -/
def c4Response : RawResponse :=
  ⟨some ⟨some 400, some ⟨some "http://example.com/v1/chat/completions"⟩,
      [("content-type", "text/plain")], .ok "failure body"⟩,
    [("content-type", "text/plain")],
    .ok (.pcomp ⟨"SimpleNamespace", none, none⟩)⟩

/-- A raw response whose parse() yields a completion with zero choices. -/
def c5Response : RawResponse :=
  ⟨some ⟨some 200, none, [], .ok "empty choices body"⟩, [],
    .ok (.pcomp ⟨"ChatCompletion", some [], none⟩)⟩

/-- A raw response whose body read raises. -/
def c9Response : RawResponse :=
  ⟨some ⟨some 502, none, [("retry-after", "1")], .error "connection reset"⟩,
    [], .error (.otherError "boom")⟩

/-- data: [DONE] only. -/
def c8Body : String := "data: [DONE]"

def c8Response : RawResponse :=
  ⟨some ⟨some 200, none, [], .ok c8Body⟩, [], .ok (.pstr c8Body)⟩

/-- An SSE line whose payload is valid JSON but not a mapping, and one whose
delta is null. -/
def c10BodyInt : String := "data: 42\ndata: [DONE]"

def c10BodyNullDelta : String :=
  "data: \x7b\"choices\":[\x7b\"delta\":null\x7d]\x7d\ndata: [DONE]"

def c10Response : RawResponse :=
  ⟨some ⟨some 200, none, [], .ok c10BodyInt⟩, [], .ok (.pstr c10BodyInt)⟩

/-- Payload for the C7 witness: id, usage mapping, empty choices list. -/
def c7Body : String :=
  "data: \x7b\"id\":\"x\",\"usage\":\x7b\"prompt_tokens\":1\x7d,\"choices\":[]\x7d\ndata: [DONE]"

def c7Last : Json :=
  .obj [("id", .str "x"), ("usage", .obj [("prompt_tokens", .num 1)]),
    ("choices", .arr [])]

/-! ## Helper lemmas: strip-fixed strings and the line loop -/

theorem pyStrip_fixed_left {l : List Char} (h : pyStripChars l = l) :
    l.dropWhile isPySpace = l := by
  have hsuf : l.dropWhile isPySpace <:+ l := List.dropWhile_suffix isPySpace
  refine hsuf.eq_of_length ?_
  have h₁ : (l.dropWhile isPySpace).length ≤ l.length := hsuf.length_le
  have h₂ : (pyStripChars l).length ≤ (l.dropWhile isPySpace).length := by
    unfold pyStripChars
    rw [List.length_reverse]
    calc ((l.dropWhile isPySpace).reverse.dropWhile isPySpace).length
        ≤ (l.dropWhile isPySpace).reverse.length :=
          (List.dropWhile_suffix isPySpace).length_le
      _ = (l.dropWhile isPySpace).length := List.length_reverse _
  rw [h] at h₂
  omega

theorem pyStrip_fixed_right {l : List Char} (h : pyStripChars l = l) :
    l.reverse.dropWhile isPySpace = l.reverse := by
  have hl := pyStrip_fixed_left h
  unfold pyStripChars at h
  rw [hl] at h
  have := congrArg List.reverse h
  rwa [List.reverse_reverse] at this

theorem not_space_of_dropWhile_cons {c : Char} {t : List Char}
    (h : (c :: t).dropWhile isPySpace = c :: t) : isPySpace c = false := by
  by_contra hc
  rw [Bool.not_eq_false] at hc
  rw [List.dropWhile_cons_of_pos hc] at h
  have := (List.dropWhile_suffix (l := t) isPySpace).length_le
  have := congrArg List.length h
  simp at this
  omega

theorem dropWhile_append_of_fixed {l r : List Char}
    (hl : l.dropWhile isPySpace = l) (hne : l ≠ []) :
    (l ++ r).dropWhile isPySpace = l ++ r := by
  cases l with
  | nil => exact absurd rfl hne
  | cons c t =>
      rw [List.cons_append,
        List.dropWhile_cons_of_neg (by simp [not_space_of_dropWhile_cons hl])]

/-- str.strip() leaves a data: line over a strip-fixed payload unchanged. -/
theorem pyStrip_data_line {p : List Char} (hp : pyStripChars p = p)
    (hne : p ≠ []) :
    pyStripChars ("data: ".data ++ p) = "data: ".data ++ p := by
  unfold pyStripChars
  have hleft : ("data: ".data ++ p).dropWhile isPySpace = "data: ".data ++ p := by
    rw [show ("data: ".data ++ p) = 'd' :: ("ata: ".data ++ p) from rfl]
    rw [List.dropWhile_cons_of_neg (by decide)]
  rw [hleft, List.reverse_append]
  have hp' : p.reverse ≠ [] := by simpa using hne
  rw [dropWhile_append_of_fixed (pyStrip_fixed_right hp) hp',
    List.reverse_append, List.reverse_reverse, List.reverse_reverse]

/-- str.strip() of the payload after the prefix is the payload itself. -/
theorem pyStrip_space_cons {p : List Char} (hp : pyStripChars p = p) :
    pyStripChars (' ' :: p) = p := by
  unfold pyStripChars
  rw [List.dropWhile_cons_of_pos (by decide), pyStrip_fixed_left hp,
    pyStrip_fixed_right hp, List.reverse_reverse]

theorem filterMap_str_of_all {cs : List Json} (h : cs.all Json.isStr = true) :
    (cs.filterMap fun c =>
      match c with
      | .str s => some s
      | _ => none).map Json.str = cs := by
  induction cs with
  | nil => rfl
  | cons c t ih =>
      cases c <;> simp_all [Json.isStr]

theorem processLine_done (st : List Json × Option Json) :
    processLine st ("data: [DONE]".data) = .ok st := rfl

/-- One well-behaved data line advances the loop state as lineStrChunks and
lineDecoded describe. -/
theorem processLine_data_line (st : List Json × Option Json) (p : List Char)
    (hgood : lineGoodB p = true) :
    processLine st ("data: ".data ++ p) =
      .ok (st.1 ++ (lineStrChunks p).map Json.str,
        match lineDecoded p with
        | some j => some j
        | none => st.2) := by
  rw [lineGoodB, Bool.and_assoc, Bool.and_eq_true, Bool.and_eq_true] at hgood
  obtain ⟨hstrip', hne', hrest⟩ := hgood
  have hstrip : pyStripChars p = p := of_decide_eq_true hstrip'
  have hne : p ≠ [] := by simpa using hne'
  have hpref : "data:".data.isPrefixOf ("data: ".data ++ p) = true := rfl
  have hdrop : ("data: ".data ++ p).drop 5 = ' ' :: p := rfl
  simp only [processLine, pyStrip_data_line hstrip hne, hpref, if_true,
    hdrop, pyStrip_space_cons hstrip]
  rw [show p.isEmpty = false by simpa using hne, Bool.false_or]
  by_cases hdone : p = "[DONE]".data
  · subst hdone
    rw [show (("[DONE]".data : List Char) == "[DONE]".data) = true from rfl]
    simp [lineStrChunks, lineDecoded,
      show jsonDecode "[DONE]".data = .error () from rfl]
  · rw [show (p == "[DONE]".data) = false by simpa using hdone]
    simp only [if_false, Bool.false_eq_true]
    rcases hdec : jsonDecode p with e | j
    · simp [lineStrChunks, lineDecoded, hdec]
    · rcases hch : chunksOfPayload j with e | cs
      · exfalso
        simp [hdec, hch] at hrest
      · simp only [hdec, hch] at hrest
        simp [lineStrChunks, lineDecoded, hdec, hch, Except.map,
          filterMap_str_of_all hrest]

/-- Splitting the loop at a list boundary. -/
theorem processLines_append (xs ys : List (List Char))
    (st : List Json × Option Json) :
    processLines st (xs ++ ys) =
      match processLines st xs with
      | .error e => .error e
      | .ok st₁ => processLines st₁ ys := by
  induction xs generalizing st with
  | nil => simp [processLines]
  | cons x t ih =>
      simp only [List.cons_append, processLines]
      rcases processLine st x with e | st₁
      · rfl
      · exact ih st₁

/-- Running the loop over well-behaved data lines accumulates every line's
contributions in order and tracks the last decoded payload. -/
theorem processLines_data_lines (ps : List (List Char))
    (st : List Json × Option Json) (h : ∀ p ∈ ps, lineGoodB p = true) :
    processLines st (ps.map fun p => "data: ".data ++ p) =
      .ok (st.1 ++ (ps.flatMap lineStrChunks).map Json.str,
        lastDecoded st.2 ps) := by
  induction ps generalizing st with
  | nil => simp [processLines, lastDecoded]
  | cons p t ih =>
      simp only [List.map_cons, processLines,
        processLine_data_line st p (h p (by simp))]
      rw [ih _ (fun q hq => h q (by simp [hq]))]
      simp [lastDecoded, List.flatMap_cons, List.append_assoc]

theorem lastDecoded_some (ps : List (List Char)) (j : Json) :
    ∃ k, lastDecoded (some j) ps = some k := by
  induction ps generalizing j with
  | nil => exact ⟨j, rfl⟩
  | cons p t ih =>
      simp only [lastDecoded]
      rcases lineDecoded p with _ | j'
      · exact ih j
      · exact ih j'

theorem lastDecoded_of_decodeOk (ps : List (List Char)) (acc : Option Json)
    (h : ∃ p ∈ ps, decodeOk p = true) :
    ∃ k, lastDecoded acc ps = some k := by
  induction ps generalizing acc with
  | nil => simp at h
  | cons p t ih =>
      simp only [lastDecoded]
      rcases hd : lineDecoded p with _ | j
      · rcases h with ⟨q, hq, hqok⟩
        rcases List.mem_cons.mp hq with rfl | hqt
        · exfalso
          rw [decodeOk] at hqok
          rw [lineDecoded] at hd
          rcases hdec : jsonDecode q with e | j <;> rw [hdec] at hqok hd <;>
            simp_all
        · exact ih acc ⟨q, hqt, hqok⟩
      · exact lastDecoded_some t j

theorem pyJoinStrs_map_str (ss : List String) :
    pyJoinStrs (ss.map Json.str) = .ok (joinAll ss) := by
  induction ss with
  | nil => rfl
  | cons s t ih => simp [pyJoinStrs, joinAll, Except.map, ih]

/-- The synthesized dict's first choice carries the joined content. -/
theorem synthesize_content (chunks : List Json) (lp : Json) (content : String)
    (j : Json) (hjoin : pyJoinStrs chunks = .ok content)
    (hsynth : synthesize chunks lp = .ok j) :
    completionDictContent j = some (.str content) := by
  unfold synthesize at hsynth
  rw [hjoin] at hsynth
  simp only [Except.map, Except.ok.injEq] at hsynth
  subst hsynth
  rcases hu : lp.getKey "usage" with _ | u
  · simp [completionDictContent, hu, Json.getKey, lookupList]
  · cases u <;> simp [completionDictContent, hu, Json.getKey, lookupList]

/-! ## The claims -/

/-- C1: whenever parse() returns a structured (non-string) completion whose
choices is non-empty, normalize returns an output whose raw_output is
choices[0].message, whose content is that message's content, and whose
usage maps prompt_tokens/completion_tokens when usage is carried and is
zero/zero otherwise. -/
theorem c1_success_normalization (r : RawResponse) (c : CompletionObj)
    (ch : ChatChoice) (rest : List ChatChoice)
    (hparse : r.parseResult = .ok (.pcomp c))
    (hchoices : c.choices = some (ch :: rest)) :
    executeLlmWithLogging r =
      (.ok ⟨ch.message, ch.message.content, c,
        (match c.usage with
         | some u => ⟨u.prompt_tokens, u.completion_tokens⟩
         | none => ⟨0, 0⟩), r.headers⟩, []) := by
  rcases hu : c.usage with _ | u <;>
    simp [executeLlmWithLogging, hparse, normalizeCompletion, hchoices, hu]

/-- Witness for C1 at a concrete structured response carrying usage. -/
theorem c1_witness :
    executeLlmWithLogging c1Response =
      (.ok ⟨c1Message, some "hi", c1Completion, ⟨3, 5⟩,
        [("content-type", "application/json")]⟩, []) :=
  c1_success_normalization c1Response c1Completion ⟨0, c1Message, some "stop"⟩
    [] rfl rfl

/-- C3: when parse() raises, the very same exception value propagates out of
normalize and exactly one error record is logged, whose details carry the
raw body text as response_body and a null parsed_type. -/
theorem c3_parse_error_logging (r : RawResponse) (exc : PyExc) (h : HttpResp)
    (body : String) (hparse : r.parseResult = .error exc)
    (hhttp : r.http_response = some h) (htext : h.text = .ok body) :
    executeLlmWithLogging r =
      (.error exc,
        [⟨.error,
          "Failed to parse response from LLM; " ++
            formatDetailMessage (buildResponseDetails r none),
          buildResponseDetails r none⟩]) ∧
      (buildResponseDetails r none).response_body = body ∧
      (buildResponseDetails r none).parsed_type = none := by
  refine ⟨?_, ?_, rfl⟩
  · simp [executeLlmWithLogging, hparse]
  · simp [buildResponseDetails, extractResponseBody, hhttp, htext]

/-- Witness for C3 at a concrete failing parse. -/
theorem c3_witness :
    executeLlmWithLogging c3Response =
      (.error (.otherError "Expecting value: line 1 column 1 (char 0)"),
        [⟨.error,
          "Failed to parse response from LLM; " ++
            formatDetailMessage (buildResponseDetails c3Response none),
          buildResponseDetails c3Response none⟩]) ∧
      (buildResponseDetails c3Response none).response_body = "failure body" ∧
      (buildResponseDetails c3Response none).parsed_type = none :=
  c3_parse_error_logging c3Response _ _ _ rfl rfl rfl

/-- C4: a completion with no choices attribute makes normalize fail with the
AttributeError raised by the attribute access, after logging one error whose
message contains the substring missing 'choices' and whose details carry the
parsed type name. -/
theorem c4_missing_choices (r : RawResponse) (c : CompletionObj)
    (hparse : r.parseResult = .ok (.pcomp c)) (hchoices : c.choices = none) :
    ∃ d : ResponseDetails,
      executeLlmWithLogging r =
        (.error (missingChoicesExc c.typeName),
          [⟨.error, "LLM response missing 'choices' field; " ++
            formatDetailMessage d, d⟩]) ∧
      d.parsed_type = some c.typeName ∧
      ∃ a b : String,
        "LLM response missing 'choices' field; " ++ formatDetailMessage d =
          a ++ "missing 'choices'" ++ b := by
  refine ⟨buildResponseDetails r (some (.pcomp c)), ?_, rfl, "LLM response ",
    " field; " ++ formatDetailMessage (buildResponseDetails r (some (.pcomp c))),
    ?_⟩
  · simp [executeLlmWithLogging, hparse, normalizeCompletion, hchoices,
      missingChoicesResult, parsedTypeName]
  · rw [← String.append_assoc]
    rfl

/-- Witness for C4 at the first unit test's duck-typed object. -/
theorem c4_witness :
    ∃ d : ResponseDetails,
      executeLlmWithLogging c4Response =
        (.error (missingChoicesExc "SimpleNamespace"),
          [⟨.error, "LLM response missing 'choices' field; " ++
            formatDetailMessage d, d⟩]) ∧
      d.parsed_type = some "SimpleNamespace" ∧
      ∃ a b : String,
        "LLM response missing 'choices' field; " ++ formatDetailMessage d =
          a ++ "missing 'choices'" ++ b :=
  c4_missing_choices c4Response ⟨"SimpleNamespace", none, none⟩ rfl rfl

/-- C5: choices present but empty raises NoChoicesAvailableError after
logging one error record, and that error kind is distinct from the
AttributeError of the missing-choices path. -/
theorem c5_empty_choices (r : RawResponse) (c : CompletionObj)
    (hparse : r.parseResult = .ok (.pcomp c))
    (hchoices : c.choices = some []) :
    (∃ d : ResponseDetails,
      executeLlmWithLogging r =
        (.error .noChoicesAvailableError,
          [⟨.error, "LLM response contained no choices; " ++
            formatDetailMessage d, d⟩])) ∧
      ∀ msg : String,
        (PyExc.noChoicesAvailableError : PyExc) ≠ .attributeError msg := by
  refine ⟨⟨buildResponseDetails r (some (.pcomp c)), ?_⟩, fun msg => by simp⟩
  simp [executeLlmWithLogging, hparse, normalizeCompletion, hchoices]

/-- Witness for C5 at a concrete empty-choices completion. -/
theorem c5_witness :
    (∃ d : ResponseDetails,
      executeLlmWithLogging c5Response =
        (.error .noChoicesAvailableError,
          [⟨.error, "LLM response contained no choices; " ++
            formatDetailMessage d, d⟩])) ∧
      ∀ msg : String,
        (PyExc.noChoicesAvailableError : PyExc) ≠ .attributeError msg :=
  c5_empty_choices c5Response ⟨"ChatCompletion", some [], none⟩ rfl rfl

/-- C9: buildResponseDetails is total with all five fields, and a failing
body read is replaced by a placeholder naming the failure rather than
letting a second exception propagate. -/
theorem c9_details_placeholder (r : RawResponse) (parsed : Option ParsedValue)
    (h : HttpResp) (exc : String) (hhttp : r.http_response = some h)
    (htext : h.text = .error exc) :
    buildResponseDetails r parsed =
      { status_code := h.status_code
        url := match h.request with
          | some req => some (req.url.getD "")
          | none => none
        headers := h.headers
        response_body := "<failed to read response body: " ++ exc ++ ">"
        parsed_type := parsed.map parsedTypeName } := by
  simp [buildResponseDetails, extractResponseBody, hhttp, htext]

/-- Witness for C9 at a concrete body-read failure. -/
theorem c9_witness :
    buildResponseDetails c9Response none =
      { status_code := some 502
        url := none
        headers := [("retry-after", "1")]
        response_body := "<failed to read response body: connection reset>"
        parsed_type := none } :=
  c9_details_placeholder c9Response none _ _ rfl rfl

/-- C6: every output normalize returns carries a usage field (zero-filled
when the source completion has none) and comes from a completion whose
choices is non-empty; empty or missing choices never yields an output. -/
theorem c6_output_invariant (r : RawResponse) (out : OpenAIChatOutput)
    (logs : List LogRecord)
    (h : executeLlmWithLogging r = (.ok out, logs)) :
    (∃ ch rest, out.raw_model.choices = some (ch :: rest)) ∧
    out.usage =
      (match out.raw_model.usage with
       | some u => ⟨u.prompt_tokens, u.completion_tokens⟩
       | none => ⟨0, 0⟩) := by
  unfold executeLlmWithLogging at h
  rcases hp : r.parseResult with exc | completion₀ <;> rw [hp] at h
  · simp at h
  · rcases hn : normalizeCompletion completion₀ r with ⟨res, logs₁⟩
    simp only [hn] at h
    rcases res with e | completion
    · simp at h
    · rcases completion with s | c
      · simp [missingChoicesResult] at h
      · rcases hc : c.choices with _ | cs <;> simp only [hc] at h
        · simp [missingChoicesResult] at h
        · rcases cs with _ | ⟨ch, rest⟩
          · simp at h
          · simp only [Prod.mk.injEq, Except.ok.injEq] at h
            obtain ⟨h₁, h₂⟩ := h
            subst h₁
            exact ⟨⟨ch, rest, hc⟩, rfl⟩

/-- Witness for C6 at a concrete successful call. -/
theorem c6_witness :
    (∃ ch rest,
      (OpenAIChatOutput.mk c1Message (some "hi") c1Completion ⟨3, 5⟩
        [("content-type", "application/json")]).raw_model.choices =
          some (ch :: rest)) ∧
    (OpenAIChatOutput.mk c1Message (some "hi") c1Completion ⟨3, 5⟩
      [("content-type", "application/json")]).usage =
      (match (OpenAIChatOutput.mk c1Message (some "hi") c1Completion ⟨3, 5⟩
          [("content-type", "application/json")]).raw_model.usage with
       | some u => ⟨u.prompt_tokens, u.completion_tokens⟩
       | none => ⟨0, 0⟩) :=
  c6_output_invariant c1Response
    (OpenAIChatOutput.mk c1Message (some "hi") c1Completion ⟨3, 5⟩
      [("content-type", "application/json")]) [] rfl

/-- C8: an SSE body holding only data: [DONE] yields no reassembly, the
original string passes through normalization unchanged, and the choices
validation then fails through the missing-choices AttributeError path. -/
theorem c8_done_only (r : RawResponse) (s : String)
    (hparse : r.parseResult = .ok (.pstr s))
    (hstrip : pyStripChars s.data = "data: [DONE]".data) :
    coalesceStreamChunks (String.mk (pyStripChars s.data)) = .ok none ∧
    (normalizeCompletion (.pstr s) r).1 = .ok (.pstr s) ∧
    ∃ d : ResponseDetails,
      executeLlmWithLogging r =
        (.error (missingChoicesExc "str"),
          [⟨.error, "LLM response missing 'choices' field; " ++
            formatDetailMessage d, d⟩]) := by
  have hnorm : normalizeCompletion (.pstr s) r = (.ok (.pstr s), []) := by
    simp only [normalizeCompletion, hstrip]
    rfl
  refine ⟨by rw [hstrip]; rfl, by rw [hnorm], ?_⟩
  refine ⟨buildResponseDetails r (some (.pstr s)), ?_⟩
  unfold executeLlmWithLogging
  rw [hparse]
  simp [hnorm, missingChoicesResult, parsedTypeName]

/-- Witness for C8 at the literal data: [DONE] body. -/
theorem c8_witness :
    coalesceStreamChunks (String.mk (pyStripChars c8Body.data)) = .ok none ∧
    (normalizeCompletion (.pstr c8Body) c8Response).1 = .ok (.pstr c8Body) ∧
    ∃ d : ResponseDetails,
      executeLlmWithLogging c8Response =
        (.error (missingChoicesExc "str"),
          [⟨.error, "LLM response missing 'choices' field; " ++
            formatDetailMessage d, d⟩]) :=
  c8_done_only c8Response c8Body rfl rfl

/-- C10: the skip-malformed tolerance is limited to JSON-decoding failures:
a data line whose payload decodes to a non-mapping (data: 42), or whose
choice carries a null delta, raises an AttributeError out of the
reassembly, and normalize fails on such a body. -/
theorem c10_non_skippable_lines :
    coalesceStreamChunks c10BodyInt = .error (pyNoAttrGet "int") ∧
    coalesceStreamChunks c10BodyNullDelta = .error (pyNoAttrGet "NoneType") ∧
    executeLlmWithLogging c10Response = (.error (pyNoAttrGet "int"), []) :=
  ⟨rfl, rfl, rfl⟩

/-- C2 counterexample: a single data line with two choices, each carrying
content, reassembles to the concatenation across both choices (A ++ B), not
to choices[0]'s content alone. -/
theorem c2_counterexample :
    coalesceStreamChunks c2Body = .ok (some c2Coerced) ∧
    completionDictContent c2Coerced = some (.str ("A" ++ "B")) ∧
    ("A" ++ "B" : String) ≠ "A" :=
  ⟨rfl, rfl, by decide⟩

/-- C2 (amended): for a body splitting into data:-prefixed strip-fixed
payload lines followed by data: [DONE], where each payload either fails to
decode (and is skipped) or decodes with the choices loop yielding string
contents, and at least one decodes, the reassembled content is the ordered
separator-free concatenation of the delta contents of all choices of every
decodable line. -/
theorem c2_amended_concat (s : String) (ps : List (List Char))
    (hbody : pySplitlines s.data =
      (ps.map fun p => "data: ".data ++ p) ++ ["data: [DONE]".data])
    (hgood : ∀ p ∈ ps, lineGoodB p = true)
    (hdec : ∃ p ∈ ps, decodeOk p = true) :
    ∃ j : Json, coalesceStreamChunks s = .ok (some j) ∧
      completionDictContent j =
        some (.str (joinAll (ps.flatMap lineStrChunks))) := by
  have hrun : processLines ([], none) (ps.map fun p => "data: ".data ++ p) =
      .ok ((ps.flatMap lineStrChunks).map Json.str, lastDecoded none ps) := by
    simpa using processLines_data_lines ps ([], none) hgood
  obtain ⟨k, hk⟩ := lastDecoded_of_decodeOk ps none hdec
  have hjoin := pyJoinStrs_map_str (ps.flatMap lineStrChunks)
  have hco : coalesceStreamChunks s =
      (synthesize ((ps.flatMap lineStrChunks).map Json.str) k).map some := by
    unfold coalesceStreamChunks
    rw [hbody, processLines_append, hrun, hk]
    rfl
  rw [hco]
  rcases hsynth : synthesize ((ps.flatMap lineStrChunks).map Json.str) k
    with e | j
  · exfalso
    unfold synthesize at hsynth
    rw [hjoin] at hsynth
    simp [Except.map] at hsynth
  · exact ⟨j, by simp [hsynth, Except.map],
      synthesize_content _ _ _ _ hjoin hsynth⟩

/-- Witness for the amended C2 at the unit test's two-line body. -/
theorem c2_amended_witness :
    ∃ j : Json, coalesceStreamChunks c2TestBody = .ok (some j) ∧
      completionDictContent j =
        some (.str (joinAll
          ([c2TestPayloadA, c2TestPayloadB].flatMap lineStrChunks))) :=
  c2_amended_concat c2TestBody [c2TestPayloadA, c2TestPayloadB]
    (by decide) (by decide) (by decide)

/-- C7: when reassembly succeeds, the synthesized completion has id, model,
created and system_fingerprint drawn from the last payload with the stated
fallbacks, the fixed object literal, exactly one assistant choice at index 0
with the concatenated content, finish_reason stop and null logprobs, and
usage copied verbatim iff the last payload carries a mapping there. -/
theorem c7_synthesized_shape (s : String) (chunks : List Json) (lp : Json)
    (content : String)
    (hrun : processLines ([], none) (pySplitlines s.data) =
      .ok (chunks, some lp))
    (hjoin : pyJoinStrs chunks = .ok content) :
    coalesceStreamChunks s =
      .ok (some (.obj (
        [("id", lp.getD "id" (.str "streamed-response")),
         ("object", .str "chat.completion"),
         ("model", lp.getD "model" (.str "unknown-model")),
         ("created", pyOr (lp.getD "created" .null) (.num 0)),
         ("choices", .arr [.obj [
            ("index", .num 0),
            ("message", .obj [("role", .str "assistant"),
              ("content", .str content)]),
            ("finish_reason", .str "stop"),
            ("logprobs", .null)]]),
         ("system_fingerprint", lp.getD "system_fingerprint" .null)] ++
        (match lp.getKey "usage" with
         | some (.obj u) => [("usage", Json.obj u)]
         | _ => [])))) := by
  unfold coalesceStreamChunks
  rw [hrun]
  show (synthesize chunks lp).map some = _
  unfold synthesize
  rw [hjoin]
  simp only [Except.map]
  rcases hu : lp.getKey "usage" with _ | u
  · simp [hu]
  · cases u <;> simp [hu]

/-- Witness for C7 at a body whose last payload has an id, a usage mapping
and an empty choices list. -/
theorem c7_witness :
    coalesceStreamChunks c7Body =
      .ok (some (.obj (
        [("id", c7Last.getD "id" (.str "streamed-response")),
         ("object", .str "chat.completion"),
         ("model", c7Last.getD "model" (.str "unknown-model")),
         ("created", pyOr (c7Last.getD "created" .null) (.num 0)),
         ("choices", .arr [.obj [
            ("index", .num 0),
            ("message", .obj [("role", .str "assistant"),
              ("content", .str "")]),
            ("finish_reason", .str "stop"),
            ("logprobs", .null)]]),
         ("system_fingerprint", c7Last.getD "system_fingerprint" .null)] ++
        (match c7Last.getKey "usage" with
         | some (.obj u) => [("usage", Json.obj u)]
         | _ => [])))) :=
  c7_synthesized_shape c7Body [] c7Last "" rfl rfl

end GraphragFnllm
